import Mathlib

/-!
Shallow embedding of the control logic of
`Bike_Alternator_and_LED_Headlight.ino` (the final, most complete sketch
variant of the repository).

Conventions:
* C `float` values (voltages, currents) are modelled as `ℚ`.
* C `long`/`int` values are modelled as `ℤ` (or `ℕ` for the byte-valued
  error level and the millisecond clock); C integer division on `long`
  truncates toward zero, which is `Int.tdiv`.
* A C cast from `float` to `long` truncates toward zero (`ratToLong`).
* The free-running millisecond counter `millis()` is modelled as a `ℕ`
  argument threaded through the stateful functions.
* Global mutable state updated by a function becomes an explicit argument
  (the previous value) and the function returns the new value.
-/

namespace Headlight

/-! ### Configuration constants (globals of the sketch) -/

/-- `float alternatorVoltageMax = 33.9` -/
def alternatorVoltageMax : ℚ := 33.9

/-- `float alternatorVoltageHi = 30.0` -/
def alternatorVoltageHi : ℚ := 30.0

/-- `float alternatorVoltageVpcc = 7.1` -/
def alternatorVoltageVpcc : ℚ := 7.1

/-- `float alternatorVoltageMin = 4.7` -/
def alternatorVoltageMin : ℚ := 4.7

/-- `float alternatorCurrentMax = 2.5` -/
def alternatorCurrentMax : ℚ := 2.5

/-- `float batteryVoltageMin = 3.0` -/
def batteryVoltageMin : ℚ := 3.0

/-- `float batteryCurrentMax = 1750.0` -/
def batteryCurrentMax : ℚ := 1750.0

/-- `int systemLedTemperatureMax = 660` -/
def systemLedTemperatureMax : ℤ := 660

/-- `int systemLedTemperatureHi = 650` -/
def systemLedTemperatureHi : ℤ := 650

/-- `long dacRange = 4096` -/
def dacRange : ℤ := 4096

/-- `long led2Offset = dacRange*75/100` (C `long` division truncates). -/
def led2Offset : ℤ := Int.tdiv (dacRange * 75) 100

/-- `long systemLedLevelMax = dacRange*175/100` -/
def systemLedLevelMax : ℤ := Int.tdiv (dacRange * 175) 100

/-- `long systemLedLevelBbu = 2500` -/
def systemLedLevelBbu : ℤ := 2500

/-- `long systemLedLevelMin = 1150` -/
def systemLedLevelMin : ℤ := 1150

/-- `long ledDeadZoneLow = 900` -/
def ledDeadZoneLow : ℤ := 900

/-- `int alarmAudibleDuration = 1000` -/
def alarmAudibleDuration : ℕ := 1000

/-- `long indicatorBlinkInterval = 250` -/
def indicatorBlinkInterval : ℕ := 250

/-! ### Sensor snapshot (the values produced by `readSensors`) -/

/-- One per-cycle reading of all sensor inputs consumed by the control
logic (`readSensors` fills the corresponding globals once per loop). -/
structure SensorSnapshot where
  alternatorVoltageIn : ℚ
  alternatorCurrentIn : ℚ
  batteryVoltageIn : ℚ
  batteryCurrentIn : ℚ
  systemLedTemperatureIn : ℤ
  boostVoltageIn : ℚ
  chargePower : Bool
  chargeCharge : Bool
  chargeDone : Bool

/-! ### Threshold evaluation (`checkThresholds`) -/

/-- `checkThresholds`: the six sequential `if` statements of lines
190–202, each unconditionally overwriting `errorLevel`.  The argument
`errorLevel` is the value of the global on entry (the loop resets it to
`0` before calling). -/
def checkThresholds (s : SensorSnapshot) (errorLevel : ℕ) : ℕ :=
  let e1 := if s.systemLedTemperatureIn ≥ systemLedTemperatureHi then 1 else errorLevel
  let e2 := if s.alternatorVoltageIn ≥ alternatorVoltageMax then 2 else e1
  let e3 := if s.alternatorCurrentIn ≥ alternatorCurrentMax then 2 else e2
  let e4 := if s.batteryCurrentIn ≥ batteryCurrentMax then 3 else e3
  let e5 := if s.systemLedTemperatureIn ≥ systemLedTemperatureMax then 3 else e4
  if s.batteryVoltageIn ≤ batteryVoltageMin then 3 else e5

/-- The error level that `loop` computes each cycle: it resets the global
`errorLevel` to `0` (line 445) and then runs `checkThresholds`. -/
def loopErrorLevel (s : SensorSnapshot) : ℕ :=
  checkThresholds s 0

/-- The ordered rule list of `checkThresholds`, as (condition, severity)
pairs, in source order. -/
def thresholdRules (s : SensorSnapshot) : List (Bool × ℕ) :=
  [ (decide (s.systemLedTemperatureIn ≥ systemLedTemperatureHi), 1),
    (decide (s.alternatorVoltageIn ≥ alternatorVoltageMax), 2),
    (decide (s.alternatorCurrentIn ≥ alternatorCurrentMax), 2),
    (decide (s.batteryCurrentIn ≥ batteryCurrentMax), 3),
    (decide (s.systemLedTemperatureIn ≥ systemLedTemperatureMax), 3),
    (decide (s.batteryVoltageIn ≤ batteryVoltageMin), 3) ]

/-- Spec-side reading of the claim: the severity constant of the last
rule in the list whose condition is true, and `0` if no rule fires. -/
def lastFiringSeverity (rules : List (Bool × ℕ)) : ℕ :=
  ((rules.filter fun r => r.1).getLast?).elim 0 fun r => r.2

/-- C1: `checkThresholds` evaluates exactly the six rules (LED temp ≥ Hi
→ 1, alternator V ≥ Max → 2, alternator I ≥ Max → 2, battery I ≥ Max →
3, LED temp ≥ Max → 3, battery V ≤ Min → 3) in this fixed order with
unconditional overwrite, so starting from the per-cycle reset value
`errorLevel = 0` the final error level is the severity of the last rule
that fires, and `0` when none fires. -/
theorem checkThresholds_eq_lastFiringSeverity (s : SensorSnapshot) :
    loopErrorLevel s = lastFiringSeverity (thresholdRules s) := by
  by_cases h1 : s.systemLedTemperatureIn ≥ systemLedTemperatureHi <;>
  by_cases h2 : s.alternatorVoltageIn ≥ alternatorVoltageMax <;>
  by_cases h3 : s.alternatorCurrentIn ≥ alternatorCurrentMax <;>
  by_cases h4 : s.batteryCurrentIn ≥ batteryCurrentMax <;>
  by_cases h5 : s.systemLedTemperatureIn ≥ systemLedTemperatureMax <;>
  by_cases h6 : s.batteryVoltageIn ≤ batteryVoltageMin <;>
  simp [loopErrorLevel, checkThresholds, thresholdRules, lastFiringSeverity,
    h1, h2, h3, h4, h5, h6, List.filter]

/-! ### Brightness mapping (`setMainLeds`) -/

/-- C cast of a `float` to `long`: truncation toward zero. -/
def ratToLong (q : ℚ) : ℤ :=
  if 0 ≤ q then ⌊q⌋ else ⌈q⌉

/-- Arduino's integer `map` on `long`:
`(x - in_min) * (out_max - out_min) / (in_max - in_min) + out_min`,
with C `long` division (truncation toward zero). -/
def arduinoMap (x inMin inMax outMin outMax : ℤ) : ℤ :=
  Int.tdiv ((x - inMin) * (outMax - outMin)) (inMax - inMin) + outMin

/-- The three-band piecewise-linear interpolation of `setMainLeds`
(lines 229–239): below `Vpcc` → min; `Vpcc ≤ V ≤ boost` → map into
`[systemLedLevelMin, systemLedLevelBbu]`; otherwise → map
`[boost, alternatorVoltageHi]` into `[systemLedLevelBbu-350,
systemLedLevelMax]`.  The `map` arguments are the `float*1000` values
cast to `long`. -/
def interpLevel (alt boost : ℚ) : ℤ :=
  if alt < alternatorVoltageVpcc then
    systemLedLevelMin
  else if alt ≥ alternatorVoltageVpcc ∧ alt ≤ boost then
    arduinoMap (ratToLong (alt * 1000)) (ratToLong (alternatorVoltageVpcc * 1000))
      (ratToLong (boost * 1000)) systemLedLevelMin systemLedLevelBbu
  else
    arduinoMap (ratToLong (alt * 1000)) (ratToLong (boost * 1000))
      (ratToLong (alternatorVoltageHi * 1000)) (systemLedLevelBbu - 350) systemLedLevelMax

/-- The clamp of lines 241–245, applied (inside the `errorLevel <= 1`
branch) after the interpolation. -/
def clampLevel (z : ℤ) : ℤ :=
  if z > systemLedLevelMax then systemLedLevelMax
  else if z < systemLedLevelMin then systemLedLevelMin
  else z

/-- The value of `systemLedLevelOut` after the branch cascade of
`setMainLeds` (lines 221–246): error level 2 → max, 3 → min, ≤ 1 →
clamped interpolation; any other value leaves the global unchanged
(`prev`). -/
def systemLedLevelNext (errorLevel : ℕ) (alt boost : ℚ) (prev : ℤ) : ℤ :=
  if errorLevel = 2 then systemLedLevelMax
  else if errorLevel = 3 then systemLedLevelMin
  else if errorLevel ≤ 1 then clampLevel (interpLevel alt boost)
  else prev

/-- `led1Level` as written by lines 248–253: `systemLedLevelOut` capped
at `dacRange`. -/
def led1FromOut (out : ℤ) : ℤ :=
  if out ≥ dacRange then dacRange else out

/-- `led2Level` as written by lines 254–259: pinned to `ledDeadZoneLow`
below the dead-zone threshold, else `systemLedLevelOut - led2Offset`. -/
def led2FromOut (out : ℤ) : ℤ :=
  if out ≤ led2Offset + ledDeadZoneLow then ledDeadZoneLow
  else out - led2Offset

/-- Per-cycle commanded brightness: `loop` runs `checkThresholds` (from
the reset value 0) and then `setMainLeds` on the same snapshot. -/
def loopSystemLedLevelOut (s : SensorSnapshot) (prev : ℤ) : ℤ :=
  systemLedLevelNext (loopErrorLevel s) s.alternatorVoltageIn s.boostVoltageIn prev

/-! ### Audible alarm (`checkAudibleAlarm`) -/

/-- The alarm latch state: the globals `alarmState` and
`alarmAudibleTime`. -/
structure AlarmST where
  alarmState : Bool
  alarmAudibleTime : ℕ
  deriving DecidableEq

/-- `checkAudibleAlarm` (lines 205–217) as a state transition, given the
current `millis()` value and the current `errorLevel`. -/
def checkAudibleAlarm (now errorLevel : ℕ) (s : AlarmST) : AlarmST :=
  if s.alarmState then
    if now ≥ s.alarmAudibleTime + alarmAudibleDuration ∧ errorLevel = 0 then
      { s with alarmState := false }
    else s
  else
    if errorLevel > 0 then
      { alarmState := true, alarmAudibleTime := now }
    else s

/-- A run of consecutive loop cycles: each element is the `millis()`
value and the `errorLevel` of one call to `checkAudibleAlarm`. -/
def alarmRun (steps : List (ℕ × ℕ)) (s : AlarmST) : AlarmST :=
  steps.foldl (fun st p => checkAudibleAlarm p.1 p.2 st) s

/-! ### Indicator blink (`blinkIndicatorLed`) and power status -/

/-- The shared blink phase state: the globals `indicatorBlinkState` and
`indicatorBlinkTime`. -/
structure BlinkST where
  indicatorBlinkState : Bool
  indicatorBlinkTime : ℕ
  deriving DecidableEq

/-- `blinkIndicatorLed` (lines 329–341): both branches toggle the phase
and restart the timer once `indicatorBlinkInterval` has elapsed since
the last recorded toggle time. -/
def blinkIndicatorLed (now : ℕ) (s : BlinkST) : BlinkST :=
  if s.indicatorBlinkState then
    if now ≥ s.indicatorBlinkTime + indicatorBlinkInterval then
      { indicatorBlinkState := false, indicatorBlinkTime := now }
    else s
  else
    if now ≥ s.indicatorBlinkTime + indicatorBlinkInterval then
      { indicatorBlinkState := true, indicatorBlinkTime := now }
    else s

/-- Number of phase toggles over a sequence of `blinkIndicatorLed` calls
at the given `millis()` values (a toggle happens in a call exactly when
the interval has elapsed). -/
def blinkToggleCount : List ℕ → BlinkST → ℕ
  | [], _ => 0
  | n :: ns, s =>
      (if n ≥ s.indicatorBlinkTime + indicatorBlinkInterval then 1 else 0) +
        blinkToggleCount ns (blinkIndicatorLed n s)

/-- The charge-status branch cascade of `checkPowerStatus` (lines
313–325); `prev` is the value of the global `chargeStatus` on entry
(no branch matches ⇒ it is left unchanged).  `HIGH = true`,
`LOW = false`. -/
def checkPowerStatusCharge (chargePower chargeCharge chargeDone : Bool) (prev : ℕ) : ℕ :=
  if chargePower = true ∧ chargeCharge = true ∧ chargeDone = true then 0
  else if chargePower = false ∧ chargeCharge = true ∧ chargeDone = true then 1
  else if chargePower = true ∧ chargeCharge = false ∧ chargeDone = true then 2
  else if chargePower = false ∧ chargeCharge = false ∧ chargeDone = true then 3
  else if chargePower = false ∧ chargeCharge = true ∧ chargeDone = false then 4
  else if chargePower = false ∧ chargeCharge = false ∧ chargeDone = false then 5
  else prev

/-- `chargeStatus` at the end of a display-update cycle: `loop` resets
the global to 0 (line 448) before `checkPowerStatus` runs. -/
def loopChargeStatus (s : SensorSnapshot) : ℕ :=
  checkPowerStatusCharge s.chargePower s.chargeCharge s.chargeDone 0

/-- Indicator pixel colors used by `setIndicatorLed`. -/
inductive IndColor where
  | off
  | red
  | yellow
  | green
  | blue
  | white
  deriving DecidableEq

/-- The color written to the charge pixel (pixel 0) by the
`switch (chargeStatus)` of `setIndicatorLed` (lines 403–438); `none`
when no case matches (the pixel is not touched).  Blinking cases show
red during the HIGH phase and off otherwise. -/
def chargeLedColor (chargeStatus : ℕ) (blinkState : Bool) : Option IndColor :=
  match chargeStatus with
  | 0 => some IndColor.red
  | 1 => some IndColor.yellow
  | 2 => some (if blinkState then IndColor.red else IndColor.off)
  | 3 => some IndColor.green
  | 4 => some IndColor.white
  | 5 => some (if blinkState then IndColor.red else IndColor.off)
  | _ => none

/-! ### Helper lemmas -/

lemma ratToLong_mono {a b : ℚ} (h : a ≤ b) : ratToLong a ≤ ratToLong b := by
  unfold ratToLong
  split_ifs with ha hb hb2
  · exact Int.floor_le_floor h
  · exact absurd (le_trans ha h) hb
  · have h1 : ⌈a⌉ ≤ 0 := Int.ceil_le.mpr (by exact_mod_cast le_of_not_le ha)
    have h2 : (0:ℤ) ≤ ⌊b⌋ := Int.le_floor.mpr (by exact_mod_cast hb2)
    omega
  · exact Int.ceil_le_ceil h

lemma tdiv_mono_of_nonneg {a b d : ℤ} (ha : 0 ≤ a) (hab : a ≤ b) (hd : 0 < d) :
    Int.tdiv a d ≤ Int.tdiv b d := by
  rw [Int.tdiv_eq_ediv ha (le_of_lt hd), Int.tdiv_eq_ediv (le_trans ha hab) (le_of_lt hd)]
  exact Int.ediv_le_ediv hd hab

lemma arduinoMap_mono {x1 x2 inMin inMax outMin outMax : ℤ}
    (hx1 : inMin ≤ x1) (hx : x1 ≤ x2) (hin : inMin ≤ inMax) (hout : outMin ≤ outMax) :
    arduinoMap x1 inMin inMax outMin outMax ≤ arduinoMap x2 inMin inMax outMin outMax := by
  unfold arduinoMap
  rcases eq_or_lt_of_le hin with h | h
  · subst h
    simp [Int.tdiv_zero]
  · have hd : (0:ℤ) < inMax - inMin := by omega
    have hnum : (0:ℤ) ≤ (x1 - inMin) * (outMax - outMin) :=
      mul_nonneg (by omega) (by omega)
    have hle : (x1 - inMin) * (outMax - outMin) ≤ (x2 - inMin) * (outMax - outMin) :=
      mul_le_mul_of_nonneg_right (by omega) (by omega)
    have := tdiv_mono_of_nonneg hnum hle hd
    omega

lemma clampLevel_mono {a b : ℤ} (h : a ≤ b) : clampLevel a ≤ clampLevel b := by
  have hmm : systemLedLevelMin ≤ systemLedLevelMax := by decide
  unfold clampLevel
  split_ifs <;> omega

lemma clampLevel_bounds (z : ℤ) :
    systemLedLevelMin ≤ clampLevel z ∧ clampLevel z ≤ systemLedLevelMax := by
  have hmm : systemLedLevelMin ≤ systemLedLevelMax := by decide
  unfold clampLevel
  split_ifs <;> omega

lemma systemLedLevelNext_bounds {e : ℕ} (he : e ≤ 3) (alt boost : ℚ) (prev : ℤ) :
    systemLedLevelMin ≤ systemLedLevelNext e alt boost prev ∧
    systemLedLevelNext e alt boost prev ≤ systemLedLevelMax := by
  have hmm : systemLedLevelMin ≤ systemLedLevelMax := by decide
  unfold systemLedLevelNext
  split_ifs
  · exact ⟨hmm, le_refl _⟩
  · exact ⟨le_refl _, hmm⟩
  · exact clampLevel_bounds _
  · omega

/-! ### Claim theorems for the brightness mapper -/

/-- C2: when the evaluated error level is 2 (Overdrive), `setMainLeds`
commands `systemLedLevelOut = systemLedLevelMax`, independently of the
alternator-voltage and boost-voltage readings in the snapshot. -/
theorem overdrive_forces_max_brightness (s : SensorSnapshot) (prev : ℤ)
    (h : loopErrorLevel s = 2) :
    loopSystemLedLevelOut s prev = systemLedLevelMax := by
  unfold loopSystemLedLevelOut
  rw [h]
  simp [systemLedLevelNext]

theorem overdrive_forces_max_brightness_witness :
    loopErrorLevel ⟨34, 0, 4, 0, 0, 14, false, false, false⟩ = 2 ∧
    loopSystemLedLevelOut ⟨34, 0, 4, 0, 0, 14, false, false, false⟩ 0 = systemLedLevelMax := by
  have h : loopErrorLevel ⟨34, 0, 4, 0, 0, 14, false, false, false⟩ = 2 := by
    norm_num [loopErrorLevel, checkThresholds, systemLedTemperatureHi,
      systemLedTemperatureMax, alternatorVoltageMax, alternatorCurrentMax,
      batteryCurrentMax, batteryVoltageMin]
  exact ⟨h, overdrive_forces_max_brightness _ 0 h⟩

/-- C3: when the evaluated error level is 3 (Overload), `setMainLeds`
commands `systemLedLevelOut = systemLedLevelMin`, independently of the
alternator-voltage and boost-voltage readings in the snapshot. -/
theorem overload_forces_min_brightness (s : SensorSnapshot) (prev : ℤ)
    (h : loopErrorLevel s = 3) :
    loopSystemLedLevelOut s prev = systemLedLevelMin := by
  unfold loopSystemLedLevelOut
  rw [h]
  simp [systemLedLevelNext]

theorem overload_forces_min_brightness_witness :
    loopErrorLevel ⟨10, 0, 2.9, 0, 0, 14, false, false, false⟩ = 3 ∧
    loopSystemLedLevelOut ⟨10, 0, 2.9, 0, 0, 14, false, false, false⟩ 0 = systemLedLevelMin := by
  have h : loopErrorLevel ⟨10, 0, 2.9, 0, 0, 14, false, false, false⟩ = 3 := by
    norm_num [loopErrorLevel, checkThresholds, systemLedTemperatureHi,
      systemLedTemperatureMax, alternatorVoltageMax, alternatorCurrentMax,
      batteryCurrentMax, batteryVoltageMin]
  exact ⟨h, overload_forces_min_brightness _ 0 h⟩

/-- C4: for every error level in {0,1,2,3} and every snapshot (voltage
and boost readings unrestricted, so the interpolation may overshoot),
the commanded brightness after `setMainLeds` lies within
`[systemLedLevelMin, systemLedLevelMax]`. -/
theorem setMainLeds_clamp_invariant (e : ℕ) (alt boost : ℚ) (prev : ℤ) (he : e ≤ 3) :
    systemLedLevelMin ≤ systemLedLevelNext e alt boost prev ∧
    systemLedLevelNext e alt boost prev ≤ systemLedLevelMax :=
  systemLedLevelNext_bounds he alt boost prev

theorem setMainLeds_clamp_invariant_witness :
    systemLedLevelMin ≤ systemLedLevelNext 1 50 14 0 ∧
    systemLedLevelNext 1 50 14 0 ≤ systemLedLevelMax :=
  setMainLeds_clamp_invariant 1 50 14 0 (by decide)

/-- C5: for error level 0 or 1, a fixed boost reading (which from
`readSensors` line 172 is at most `1023*(19.3/1023) = 19.3 V`), the
commanded brightness is non-decreasing in the alternator voltage within
each of the three bands: below `Vpcc`, from `Vpcc` up to the boost
voltage, and above the boost voltage. -/
theorem setMainLeds_monotone_in_bands (e : ℕ) (a1 a2 boost : ℚ) (prev1 prev2 : ℤ)
    (he : e ≤ 1) (hb : boost ≤ 19.3) (ha : a1 ≤ a2)
    (hband : a2 < alternatorVoltageVpcc ∨
             (alternatorVoltageVpcc ≤ a1 ∧ a2 ≤ boost) ∨
             (alternatorVoltageVpcc ≤ a1 ∧ boost < a1)) :
    systemLedLevelNext e a1 boost prev1 ≤ systemLedLevelNext e a2 boost prev2 := by
  have h2 : e ≠ 2 := by omega
  have h3 : e ≠ 3 := by omega
  simp only [systemLedLevelNext, if_neg h2, if_neg h3, if_pos he]
  apply clampLevel_mono
  unfold interpLevel
  rcases hband with hb1 | ⟨hv, hbb⟩ | ⟨hv, hgt⟩
  · rw [if_pos (lt_of_le_of_lt ha hb1), if_pos hb1]
  · have hv2 : alternatorVoltageVpcc ≤ a2 := le_trans hv ha
    have ha1b : a1 ≤ boost := le_trans ha hbb
    rw [if_neg (not_lt.mpr hv), if_pos (show a1 ≥ alternatorVoltageVpcc ∧ a1 ≤ boost from ⟨hv, ha1b⟩),
        if_neg (not_lt.mpr hv2), if_pos (show a2 ≥ alternatorVoltageVpcc ∧ a2 ≤ boost from ⟨hv2, hbb⟩)]
    apply arduinoMap_mono
    · exact ratToLong_mono (mul_le_mul_of_nonneg_right hv (by norm_num))
    · exact ratToLong_mono (mul_le_mul_of_nonneg_right ha (by norm_num))
    · exact ratToLong_mono (mul_le_mul_of_nonneg_right (le_trans hv ha1b) (by norm_num))
    · decide
  · have hv2 : alternatorVoltageVpcc ≤ a2 := le_trans hv ha
    have hgt2 : boost < a2 := lt_of_lt_of_le hgt ha
    have hbh : boost ≤ alternatorVoltageHi :=
      le_trans hb (by norm_num [alternatorVoltageHi])
    rw [if_neg (not_lt.mpr hv), if_neg (fun hc => absurd hc.2 (not_le.mpr hgt)),
        if_neg (not_lt.mpr hv2), if_neg (fun hc => absurd hc.2 (not_le.mpr hgt2))]
    apply arduinoMap_mono
    · exact ratToLong_mono (mul_le_mul_of_nonneg_right (le_of_lt hgt) (by norm_num))
    · exact ratToLong_mono (mul_le_mul_of_nonneg_right ha (by norm_num))
    · exact ratToLong_mono (mul_le_mul_of_nonneg_right hbh (by norm_num))
    · decide

theorem setMainLeds_monotone_in_bands_witness :
    systemLedLevelNext 0 8 14 0 ≤ systemLedLevelNext 0 10 14 0 :=
  setMainLeds_monotone_in_bands 0 8 10 14 0 0 (by decide) (by norm_num) (by norm_num)
    (Or.inr (Or.inl ⟨by norm_num [alternatorVoltageVpcc], by norm_num⟩))

/-- C8: whenever `systemLedLevelOut ≤ led2Offset + ledDeadZoneLow`,
`setMainLeds` pins `led2Level` to exactly `ledDeadZoneLow` (never
lower); otherwise it sets `led2Level = systemLedLevelOut - led2Offset`. -/
theorem led2_dead_zone (out : ℤ) :
    (out ≤ led2Offset + ledDeadZoneLow → led2FromOut out = ledDeadZoneLow) ∧
    (led2Offset + ledDeadZoneLow < out → led2FromOut out = out - led2Offset) := by
  unfold led2FromOut
  refine ⟨fun h => ?_, fun h => ?_⟩
  · rw [if_pos h]
  · rw [if_neg (by omega)]

theorem led2_dead_zone_witness :
    led2FromOut 100 = ledDeadZoneLow ∧ led2FromOut 5000 = 5000 - led2Offset :=
  ⟨(led2_dead_zone 100).1 (by decide), (led2_dead_zone 5000).2 (by decide)⟩

/-- C9 (implicit): for every error level in {0,1,2,3} and every
snapshot, after `setMainLeds` the channel levels satisfy
`led1Level ∈ [systemLedLevelMin, dacRange]` and
`led2Level ∈ [ledDeadZoneLow, systemLedLevelMax - led2Offset]`, so the
inverted DAC writes `dacRange - ledLevel` are within `[0, dacRange]`. -/
theorem led_channels_within_dac_range (e : ℕ) (alt boost : ℚ) (prev : ℤ) (he : e ≤ 3) :
    systemLedLevelMin ≤ led1FromOut (systemLedLevelNext e alt boost prev) ∧
    led1FromOut (systemLedLevelNext e alt boost prev) ≤ dacRange ∧
    ledDeadZoneLow ≤ led2FromOut (systemLedLevelNext e alt boost prev) ∧
    led2FromOut (systemLedLevelNext e alt boost prev) ≤ systemLedLevelMax - led2Offset ∧
    0 ≤ dacRange - led1FromOut (systemLedLevelNext e alt boost prev) ∧
    dacRange - led1FromOut (systemLedLevelNext e alt boost prev) ≤ dacRange ∧
    0 ≤ dacRange - led2FromOut (systemLedLevelNext e alt boost prev) ∧
    dacRange - led2FromOut (systemLedLevelNext e alt boost prev) ≤ dacRange := by
  obtain ⟨hlo, hhi⟩ := systemLedLevelNext_bounds he alt boost prev
  have e1 : systemLedLevelMin = 1150 := by decide
  have e2 : systemLedLevelMax = 7168 := by decide
  have e3 : led2Offset = 3072 := by decide
  have e4 : ledDeadZoneLow = 900 := by decide
  have e5 : dacRange = 4096 := by decide
  unfold led1FromOut led2FromOut
  split_ifs <;> omega

theorem led_channels_within_dac_range_witness :
    systemLedLevelMin ≤ led1FromOut (systemLedLevelNext 0 3 14 0) ∧
    led1FromOut (systemLedLevelNext 0 3 14 0) ≤ dacRange ∧
    ledDeadZoneLow ≤ led2FromOut (systemLedLevelNext 0 3 14 0) ∧
    led2FromOut (systemLedLevelNext 0 3 14 0) ≤ systemLedLevelMax - led2Offset ∧
    0 ≤ dacRange - led1FromOut (systemLedLevelNext 0 3 14 0) ∧
    dacRange - led1FromOut (systemLedLevelNext 0 3 14 0) ≤ dacRange ∧
    0 ≤ dacRange - led2FromOut (systemLedLevelNext 0 3 14 0) ∧
    dacRange - led2FromOut (systemLedLevelNext 0 3 14 0) ≤ dacRange :=
  led_channels_within_dac_range 0 3 14 0 (by decide)

/-! ### Alarm latch lemmas and claim -/

lemma checkAudibleAlarm_sounding_fix {now e : ℕ} {s : AlarmST} (hs : s.alarmState = true)
    (hlt : now < s.alarmAudibleTime + alarmAudibleDuration) :
    checkAudibleAlarm now e s = s := by
  unfold checkAudibleAlarm
  rw [if_pos hs, if_neg (fun hc => absurd hc.1 (by omega))]

lemma alarmRun_sounding_fix : ∀ (steps : List (ℕ × ℕ)) (s : AlarmST),
    s.alarmState = true →
    (∀ p ∈ steps, p.1 < s.alarmAudibleTime + alarmAudibleDuration) →
    alarmRun steps s = s
  | [], _, _, _ => rfl
  | p :: ps, s, hs, hw => by
      have hfix : checkAudibleAlarm p.1 p.2 s = s :=
        checkAudibleAlarm_sounding_fix hs (hw p (List.mem_cons_self p ps))
      show alarmRun ps (checkAudibleAlarm p.1 p.2 s) = s
      rw [hfix]
      exact alarmRun_sounding_fix ps s hs fun q hq => hw q (List.mem_cons_of_mem p hq)

lemma checkAudibleAlarm_silent_iff {now e : ℕ} {s : AlarmST} (hs : s.alarmState = true) :
    (checkAudibleAlarm now e s).alarmState = false ↔
      (e = 0 ∧ s.alarmAudibleTime + alarmAudibleDuration ≤ now) := by
  unfold checkAudibleAlarm
  rw [if_pos hs]
  by_cases hc : now ≥ s.alarmAudibleTime + alarmAudibleDuration ∧ e = 0
  · rw [if_pos hc]
    simp [hc.1, hc.2]
  · rw [if_neg hc, hs]
    simp only [Bool.true_eq_false, false_iff]
    intro hcon
    exact hc ⟨hcon.2, hcon.1⟩

/-- C6: once the alarm is Sounding, any run of cycles whose `millis()`
values are all less than `alarmAudibleDuration` past the recorded
activation time leaves the latch untouched (still Sounding with the same
activation time), whatever the error levels — including an immediate
return to 0; and from the Sounding state a single cycle goes Silent
exactly when the error level is 0 and the minimum audible duration has
elapsed.  Moreover entering Sounding records the activation time. -/
theorem checkAudibleAlarm_min_audible_duration (steps : List (ℕ × ℕ)) (s : AlarmST)
    (now e : ℕ) (hs : s.alarmState = true)
    (hw : ∀ p ∈ steps, p.1 < s.alarmAudibleTime + alarmAudibleDuration) :
    alarmRun steps s = s ∧
    ((checkAudibleAlarm now e s).alarmState = false ↔
      (e = 0 ∧ s.alarmAudibleTime + alarmAudibleDuration ≤ now)) ∧
    (∀ (t e0 : ℕ) (s0 : AlarmST), s0.alarmState = false → 0 < e0 →
      checkAudibleAlarm t e0 s0 = { alarmState := true, alarmAudibleTime := t }) := by
  refine ⟨alarmRun_sounding_fix steps s hs hw, checkAudibleAlarm_silent_iff hs, ?_⟩
  intro t e0 s0 h0 he0
  unfold checkAudibleAlarm
  rw [if_neg (by simp [h0]), if_pos he0]

theorem checkAudibleAlarm_min_audible_duration_witness :
    alarmRun [(500, 0), (900, 5)] ⟨true, 0⟩ = ⟨true, 0⟩ ∧
    ((checkAudibleAlarm 1200 0 ⟨true, 0⟩).alarmState = false ↔
      (0 = 0 ∧ 0 + alarmAudibleDuration ≤ 1200)) ∧
    (∀ (t e0 : ℕ) (s0 : AlarmST), s0.alarmState = false → 0 < e0 →
      checkAudibleAlarm t e0 s0 = { alarmState := true, alarmAudibleTime := t }) :=
  checkAudibleAlarm_min_audible_duration [(500, 0), (900, 5)] ⟨true, 0⟩ 1200 0 rfl (by decide)

/-! ### Indicator blink lemmas and claim -/

lemma blinkIndicatorLed_no_toggle {now : ℕ} {s : BlinkST}
    (h : now < s.indicatorBlinkTime + indicatorBlinkInterval) :
    blinkIndicatorLed now s = s := by
  have hc : ¬ now ≥ s.indicatorBlinkTime + indicatorBlinkInterval := by omega
  unfold blinkIndicatorLed
  simp [hc]

lemma blinkIndicatorLed_toggle {now : ℕ} {s : BlinkST}
    (h : now ≥ s.indicatorBlinkTime + indicatorBlinkInterval) :
    blinkIndicatorLed now s =
      { indicatorBlinkState := !s.indicatorBlinkState, indicatorBlinkTime := now } := by
  unfold blinkIndicatorLed
  by_cases hb : s.indicatorBlinkState <;> simp [hb, h]

lemma blinkToggleCount_zero : ∀ (times : List ℕ) (s : BlinkST),
    (∀ t ∈ times, t < s.indicatorBlinkTime + indicatorBlinkInterval) →
    blinkToggleCount times s = 0
  | [], _, _ => rfl
  | n :: ns, s, hw => by
      have hn := hw n (List.mem_cons_self n ns)
      have hstep := blinkIndicatorLed_no_toggle hn
      simp only [blinkToggleCount]
      rw [if_neg (by omega), hstep,
        blinkToggleCount_zero ns s fun t ht => hw t (List.mem_cons_of_mem n ht)]

lemma blinkToggleCount_le_one : ∀ (times : List ℕ) (s : BlinkST) (t0 : ℕ),
    (∀ t ∈ times, t0 ≤ t ∧ t < t0 + indicatorBlinkInterval) →
    blinkToggleCount times s ≤ 1
  | [], _, _, _ => by simp [blinkToggleCount]
  | n :: ns, s, t0, hw => by
      obtain ⟨hn0, hnI⟩ := hw n (List.mem_cons_self n ns)
      by_cases hc : n ≥ s.indicatorBlinkTime + indicatorBlinkInterval
      · have hrest : blinkToggleCount ns (blinkIndicatorLed n s) = 0 := by
          rw [blinkIndicatorLed_toggle hc]
          refine blinkToggleCount_zero ns _ fun t ht => ?_
          have h2 := (hw t (List.mem_cons_of_mem n ht)).2
          show t < n + indicatorBlinkInterval
          omega
        simp only [blinkToggleCount]
        rw [hrest, if_pos hc]
      · have hstep := @blinkIndicatorLed_no_toggle n s (by omega)
        simp only [blinkToggleCount]
        rw [if_neg hc, hstep]
        simpa using blinkToggleCount_le_one ns s t0 fun t ht =>
          hw t (List.mem_cons_of_mem n ht)

lemma blinkIndicatorLed_toggle_iff (now : ℕ) (s : BlinkST) :
    (blinkIndicatorLed now s).indicatorBlinkState ≠ s.indicatorBlinkState ↔
      s.indicatorBlinkTime + indicatorBlinkInterval ≤ now := by
  by_cases hc : now ≥ s.indicatorBlinkTime + indicatorBlinkInterval
  · rw [blinkIndicatorLed_toggle hc]
    simp [hc]
  · rw [blinkIndicatorLed_no_toggle (by omega)]
    simp
    omega

/-- C7: within one `setIndicatorLed` invocation — all the
`blinkIndicatorLed` calls it makes see `millis()` values inside a window
shorter than `indicatorBlinkInterval` — the shared phase
`indicatorBlinkState` toggles at most once, however many of the three
status channels call `blinkIndicatorLed`; and a single call toggles the
phase exactly when at least `indicatorBlinkInterval` ms have elapsed
since the last recorded toggle time. -/
theorem blinkIndicatorLed_shared_phase (times : List ℕ) (s : BlinkST) (t0 now : ℕ)
    (s2 : BlinkST)
    (hw : ∀ t ∈ times, t0 ≤ t ∧ t < t0 + indicatorBlinkInterval) :
    blinkToggleCount times s ≤ 1 ∧
    ((blinkIndicatorLed now s2).indicatorBlinkState ≠ s2.indicatorBlinkState ↔
      s2.indicatorBlinkTime + indicatorBlinkInterval ≤ now) :=
  ⟨blinkToggleCount_le_one times s t0 hw, blinkIndicatorLed_toggle_iff now s2⟩

theorem blinkIndicatorLed_shared_phase_witness :
    blinkToggleCount [300, 310] ⟨false, 0⟩ ≤ 1 ∧
    ((blinkIndicatorLed 300 ⟨false, 0⟩).indicatorBlinkState ≠
        (⟨false, 0⟩ : BlinkST).indicatorBlinkState ↔
      (⟨false, 0⟩ : BlinkST).indicatorBlinkTime + indicatorBlinkInterval ≤ 300) :=
  blinkIndicatorLed_shared_phase [300, 310] ⟨false, 0⟩ 300 300 ⟨false, 0⟩ (by decide)

/-! ### Charge status claim -/

/-- C10 (implicit): the charge-line combinations matched by no branch of
`checkPowerStatus` — `chargePower = HIGH` with `chargeDone = LOW`
(covering both `chargeCharge` values) — leave `chargeStatus` at the 0
('No power') established by the per-cycle reset at the top of `loop`,
so the charge indicator shows solid red (for either blink phase) rather
than any error blink. -/
theorem chargeStatus_unmatched_combos_default (s : SensorSnapshot) (b : Bool)
    (h : s.chargePower = true ∧ s.chargeDone = false) :
    loopChargeStatus s = 0 ∧
    chargeLedColor (loopChargeStatus s) b = some IndColor.red := by
  obtain ⟨hp, hd⟩ := h
  have h0 : loopChargeStatus s = 0 := by
    unfold loopChargeStatus checkPowerStatusCharge
    simp [hp, hd]
  exact ⟨h0, by rw [h0]; rfl⟩

theorem chargeStatus_unmatched_combos_default_witness :
    loopChargeStatus ⟨0, 0, 0, 0, 0, 0, true, true, false⟩ = 0 ∧
    chargeLedColor (loopChargeStatus ⟨0, 0, 0, 0, 0, 0, true, true, false⟩) true =
      some IndColor.red :=
  chargeStatus_unmatched_combos_default ⟨0, 0, 0, 0, 0, 0, true, true, false⟩ true ⟨rfl, rfl⟩

end Headlight
